import Mathlib

/-!
Verification of the audio-capture session core of `dailysync`
(`src/native-addon/audio-capture/src/audio_capture.h`).

The repository ships only the interface header: the class `AudioCapture`
(singleton, deleted copy/move, private constructor, pimpl handle
`std::unique_ptr<AudioCaptureImpl> pImpl`) with operations
`StartRecording`, `StopRecording`, `GetAudioInputDevices`,
`IsScreenCaptureKitSupported`, `GetInstance`.  The behaviour of these
operations is modelled here from the specification, as explicit state
passing over a session state, an OS-stream world and a per-call backend
environment.
-/

/-- Mirrors `struct Device { std::string id; std::string name; }`
from `audio_capture.h`. -/
structure Device where
  id : String
  name : String
deriving DecidableEq, Repr

/-- The session state exposed to callers: `Idle` or `Recording`
(spec §3: no partial/transitional state is exposed). -/
inductive SessionState where
  | Idle : SessionState
  | Recording : SessionState
deriving DecidableEq, Repr

/-- Which of the two audio sources a backend stream captures. -/
inductive StreamKind where
  | system : StreamKind
  | mic : StreamKind
deriving DecidableEq, Repr

/-- One backend capture stream: its kind, the microphone device it reads
from (empty for the system/loopback stream) and its output destination. -/
structure CaptureStream where
  kind : StreamKind
  deviceID : String
  outputPath : String
deriving DecidableEq, Repr

/-- Modelled from the spec: the opaque backend handle (`AudioCaptureImpl`,
the pimpl target, forward-declared only in `audio_capture.h`).  Per spec
§3/§6 it represents the active dual-stream capture: one system stream and
one microphone stream. -/
structure AudioCaptureImpl where
  systemStream : CaptureStream
  micStream : CaptureStream
deriving DecidableEq, Repr

/-- The capture-session object: its caller-visible state and the
exclusively owned backend handle (`pImpl`); `none` models a null
`unique_ptr`. -/
structure AudioCapture where
  state : SessionState
  pImpl : Option AudioCaptureImpl
deriving DecidableEq, Repr

/-- The freshly constructed session: `Idle`, no backend handle
(spec §4.1: initial state `Idle`). -/
def AudioCapture.initial : AudioCapture := ⟨SessionState.Idle, none⟩

/-- The OS-level world: the capture streams currently open at the
platform layer.  Tracks resource leaks (spec §3: no leaked half-open
streams). -/
structure OSWorld where
  openStreams : List CaptureStream
deriving DecidableEq, Repr

/-- Modelled from the spec: the platform/backend conditions at the moment
of one call.  The backend (`AudioCaptureImpl`'s platform code, absent from
the repository) owns device resolution, permission prompts and file I/O;
its possible outcomes are modelled as oracles: whether the system stream
opens, whether the microphone stream opens (covering bad device,
unwritable path, denied permission), whether teardown finalises cleanly,
the current input-device list, whether enumeration is denied, and whether
ScreenCaptureKit is supported on this OS version. -/
structure BackendEnv where
  sckSupported : Bool
  sysOpenOk : Bool
  micOpenOk : Bool
  closeOk : Bool
  inputDevices : List Device
  enumDenied : Bool
deriving DecidableEq, Repr

/-- Modelled from the spec: `AudioCapture::StartRecording` (declared at
`audio_capture.h:29-33`; implementation absent from the repository).
Spec §4.1: if `state = Recording` the call fails immediately without
disturbing the existing session.  Otherwise the session opens the system
stream (which requires the ScreenCaptureKit capability, §4.3) and then
the microphone stream; if either fails, the partially-initialized stream
is torn down, the state remains `Idle` and no handle is created; if both
succeed the state becomes `Recording` and the handle owns both streams. -/
def StartRecording (env : BackendEnv) (s : AudioCapture) (os : OSWorld)
    (micDeviceID systemAudioOutputPath micAudioOutputPath : String) :
    Bool × AudioCapture × OSWorld :=
  match s.state with
  | SessionState.Recording => (false, s, os)
  | SessionState.Idle =>
      let sysStream : CaptureStream := ⟨StreamKind.system, "", systemAudioOutputPath⟩
      let micStream : CaptureStream := ⟨StreamKind.mic, micDeviceID, micAudioOutputPath⟩
      if env.sckSupported && env.sysOpenOk then
        if env.micOpenOk then
          (true, ⟨SessionState.Recording, some ⟨sysStream, micStream⟩⟩,
            ⟨os.openStreams ++ [sysStream, micStream]⟩)
        else
          -- microphone stream failed: the partially-initialized system
          -- stream is torn down, leaving the OS world as it was
          (false, ⟨SessionState.Idle, none⟩, os)
      else
        (false, ⟨SessionState.Idle, none⟩, os)

/-- Modelled from the spec: `AudioCapture::StopRecording` (declared at
`audio_capture.h:36`; implementation absent from the repository).
Spec §4.1: calling while `Idle` is a no-op reporting failure; otherwise
both streams are finalised and closed, the handle is destroyed and the
state reverts to `Idle` unconditionally — a teardown failure is reported
(result `false`) but the state still advances to `Idle`. -/
def StopRecording (env : BackendEnv) (s : AudioCapture) (os : OSWorld) :
    Bool × AudioCapture × OSWorld :=
  match s.state with
  | SessionState.Idle => (false, s, os)
  | SessionState.Recording =>
      let os' : OSWorld :=
        match s.pImpl with
        | some h => ⟨(os.openStreams.erase h.systemStream).erase h.micStream⟩
        | none => os
      (env.closeOk, ⟨SessionState.Idle, none⟩, os')

/-- Modelled from the spec: `AudioCapture::GetAudioInputDevices`
(declared at `audio_capture.h:39`; implementation absent from the
repository).  Spec §4.2: queries the current platform device list at call
time; empty sequence if no input devices exist or enumeration is denied;
never fails with an error. -/
def GetAudioInputDevices (env : BackendEnv) : List Device :=
  if env.enumDenied then [] else env.inputDevices

/-- Modelled from the spec: `AudioCapture::IsScreenCaptureKitSupported`
(declared at `audio_capture.h:42`; implementation absent from the
repository).  Spec §4.3: pure query reflecting a static property of the
running OS/runtime version. -/
def IsScreenCaptureKitSupported (env : BackendEnv) : Bool :=
  env.sckSupported

/-- The combined state every public operation acts on: the singleton
session plus the OS stream world. -/
structure SysState where
  session : AudioCapture
  os : OSWorld
deriving DecidableEq, Repr

/-- The process start state: freshly constructed session, no OS streams
open. -/
def SysState.initial : SysState := ⟨AudioCapture.initial, ⟨[]⟩⟩

/-- One public call on the session, carrying the platform/backend
conditions (`BackendEnv`) in effect at the moment of that call. -/
inductive Call where
  | start (env : BackendEnv)
      (micDeviceID systemAudioOutputPath micAudioOutputPath : String) : Call
  | stop (env : BackendEnv) : Call
  | getDevices (env : BackendEnv) : Call
  | isSupported (env : BackendEnv) : Call
deriving DecidableEq, Repr

/-- The value a call returns: a boolean for start/stop and the capability
probe, a device list for the catalog query. -/
inductive CallResult where
  | ok (b : Bool) : CallResult
  | devices (ds : List Device) : CallResult
deriving DecidableEq, Repr

/-- Dispatch one call against the combined state. -/
def step (s : SysState) (c : Call) : CallResult × SysState :=
  match c with
  | Call.start env mic sysPath micPath =>
      let r := StartRecording env s.session s.os mic sysPath micPath
      (CallResult.ok r.1, ⟨r.2.1, r.2.2⟩)
  | Call.stop env =>
      let r := StopRecording env s.session s.os
      (CallResult.ok r.1, ⟨r.2.1, r.2.2⟩)
  | Call.getDevices env => (CallResult.devices (GetAudioInputDevices env), s)
  | Call.isSupported env => (CallResult.ok (IsScreenCaptureKitSupported env), s)

/-- Run a sequence of calls, returning the final state. -/
def exec (s : SysState) : List Call → SysState
  | [] => s
  | c :: cs => exec (step s c).2 cs

/-- Run a sequence of calls, returning the trace annotated with each
call's result, together with the final state. -/
def runAnnot (s : SysState) : List Call → List (Call × CallResult) × SysState
  | [] => ([], s)
  | c :: cs =>
      let r := step s c
      let rest := runAnnot r.2 cs
      ((c, r.1) :: rest.1, rest.2)

/-! ## Trace predicates

The spec's testable property "state = Recording holds iff the most recent
start succeeded and no stop has succeeded since" is read over the
annotated trace, most recent call first (i.e. over the reversed trace). -/

/-- The spec's property exactly as claimed: scanning backwards from the
most recent call, a `StopRecording` that returned `true` means no live
start, a `StartRecording` that returned `true` means a live start, and
every other call is skipped. -/
def liveStartClaim : List (Call × CallResult) → Bool
  | [] => false
  | (Call.stop _, CallResult.ok true) :: _ => false
  | (Call.start _ _ _ _, CallResult.ok true) :: _ => true
  | _ :: rest => liveStartClaim rest

/-- The amended property: scanning backwards from the most recent call,
any `StopRecording` attempt (whatever it returned) means no live start,
a `StartRecording` that returned `true` means a live start, and every
other call is skipped. -/
def liveStart : List (Call × CallResult) → Bool
  | [] => false
  | (Call.stop _, _) :: _ => false
  | (Call.start _ _ _ _, CallResult.ok true) :: _ => true
  | _ :: rest => liveStart rest

/-! ## Helper lemmas -/

theorem exec_append (s : SysState) (t1 t2 : List Call) :
    exec s (t1 ++ t2) = exec (exec s t1) t2 := by
  induction t1 generalizing s with
  | nil => rfl
  | cons c cs ih => simp [exec, ih]

theorem runAnnot_fst_append (s : SysState) (t1 t2 : List Call) :
    (runAnnot s (t1 ++ t2)).1
      = (runAnnot s t1).1 ++ (runAnnot (exec s t1) t2).1 := by
  induction t1 generalizing s with
  | nil => rfl
  | cons c cs ih => simp [runAnnot, exec, ih]

theorem exec_singleton (s : SysState) (c : Call) :
    exec s [c] = (step s c).2 := rfl

theorem runAnnot_fst_singleton (s : SysState) (c : Call) :
    (runAnnot s [c]).1 = [(c, (step s c).1)] := rfl

theorem liveStart_stop (e : BackendEnv) (r : CallResult)
    (L : List (Call × CallResult)) :
    liveStart ((Call.stop e, r) :: L) = false := rfl

theorem liveStart_start_true (e : BackendEnv) (a b c : String)
    (L : List (Call × CallResult)) :
    liveStart ((Call.start e a b c, CallResult.ok true) :: L) = true := rfl

theorem liveStart_start_false (e : BackendEnv) (a b c : String)
    (L : List (Call × CallResult)) :
    liveStart ((Call.start e a b c, CallResult.ok false) :: L) = liveStart L := rfl

theorem liveStart_getDevices (e : BackendEnv) (r : CallResult)
    (L : List (Call × CallResult)) :
    liveStart ((Call.getDevices e, r) :: L) = liveStart L := rfl

theorem liveStart_isSupported (e : BackendEnv) (r : CallResult)
    (L : List (Call × CallResult)) :
    liveStart ((Call.isSupported e, r) :: L) = liveStart L := rfl

theorem step_start_of_recording (env : BackendEnv) (m sp mp : String)
    (s : SysState) (h : s.session.state = SessionState.Recording) :
    step s (Call.start env m sp mp) = (CallResult.ok false, s) := by
  simp [step, StartRecording, h]

theorem step_stop_state (env : BackendEnv) (s : SysState) :
    (step s (Call.stop env)).2.session.state = SessionState.Idle := by
  rcases h : s.session.state with _ | _ <;> simp [step, StopRecording, h]

/-! ## Concrete platform environments used as test inputs -/

/-- A platform where everything works: capability present, both streams
open, teardown clean, one microphone present, enumeration allowed. -/
def envAllOk : BackendEnv :=
  ⟨true, true, true, true, [⟨"mic-1", "Built-in Microphone"⟩], false⟩

/-- A platform identical to `envAllOk` except that backend teardown
fails partway while finalising the streams. -/
def envCloseFail : BackendEnv :=
  ⟨true, true, true, false, [⟨"mic-1", "Built-in Microphone"⟩], false⟩

/-- A successful start followed by a stop whose backend teardown fails
partway. -/
def teardownFailTrace : List Call :=
  [Call.start envAllOk "mic-1" "/tmp/sys.wav" "/tmp/mic.wav",
   Call.stop envCloseFail]

/-- C1 (counterexample): the claimed iff fails on the code as modelled
from spec §4.1: after a successful start and a stop whose teardown fails,
the most recent start returned `true` and no stop has returned `true`
since, yet the session state is `Idle`, not `Recording` — because a stop
attempt moves the state to `Idle` unconditionally while reporting the
teardown failure as `false`. -/
theorem recording_iff_claimed_live_start_cex :
    ¬ (((exec SysState.initial teardownFailTrace).session.state
          = SessionState.Recording) ↔
        liveStartClaim ((runAnnot SysState.initial teardownFailTrace).1.reverse)
          = true) := by
  intro hiff
  have h1 : liveStartClaim
      ((runAnnot SysState.initial teardownFailTrace).1.reverse) = true := rfl
  have h2 : (exec SysState.initial teardownFailTrace).session.state
      = SessionState.Idle := rfl
  rw [h2] at hiff
  exact SessionState.noConfusion (hiff.mpr h1)

/-- C1 (amended): starting from the initial `Idle` state, after any
sequence of calls the session is in state `Recording` iff the most recent
`StartRecording` call returned `true` and no `StopRecording` call has
been attempted since (any stop attempt, even one reporting a teardown
failure, moves the session back to `Idle`); equivalently the only
transitions are `Idle → Recording` on a successful start, `Recording →
Idle` on any stop attempt, `Idle → Idle` on a failed start, and
`Recording → Recording` on a rejected start, with no terminal state. -/
theorem recording_iff_live_start (tr : List Call) :
    ((exec SysState.initial tr).session.state = SessionState.Recording) ↔
      liveStart ((runAnnot SysState.initial tr).1.reverse) = true := by
  induction tr using List.reverseRecOn with
  | nil => simp [exec, runAnnot, liveStart, SysState.initial, AudioCapture.initial]
  | append_singleton cs c ih =>
      rw [exec_append, runAnnot_fst_append, List.reverse_append,
        exec_singleton, runAnnot_fst_singleton]
      show ((step (exec SysState.initial cs) c).2.session.state
          = SessionState.Recording) ↔
        liveStart ((c, (step (exec SysState.initial cs) c).1)
          :: (runAnnot SysState.initial cs).1.reverse) = true
      cases c with
      | start env m sp mp =>
          rcases hA : (exec SysState.initial cs).session.state with _ | _
          · -- currently Idle: result is true iff capability and both streams ok
            by_cases h1 : env.sckSupported && env.sysOpenOk
            · by_cases h2 : env.micOpenOk
              · simp [step, StartRecording, hA, h1, h2, liveStart_start_true]
              · simp [step, StartRecording, hA, h1, h2, liveStart_start_false,
                  ← ih, hA]
            · simp [step, StartRecording, hA, h1, liveStart_start_false,
                ← ih, hA]
          · -- currently Recording: start rejected, state unchanged
            rw [step_start_of_recording env m sp mp _ hA]
            simp [liveStart_start_false, ← ih, hA]
      | stop env =>
          rw [step_stop_state]
          simp [liveStart_stop]
      | getDevices env =>
          simp [step, liveStart_getDevices, ih]
      | isSupported env =>
          simp [step, liveStart_isSupported, ih]

/-- A session in the middle of an active recording, holding the handle
for the two streams of spec §8's scenario. -/
def recordingSession : AudioCapture :=
  ⟨SessionState.Recording,
    some ⟨⟨StreamKind.system, "", "/tmp/sys.wav"⟩,
          ⟨StreamKind.mic, "mic-1", "/tmp/mic.wav"⟩⟩⟩

/-- C2: a `StartRecording` call made while the session is `Recording`
returns `false` and leaves everything untouched: same state, same backend
handle, and the OS world (the already-active streams writing to their
original output destinations) is not disturbed. -/
theorem start_while_recording_rejected (env : BackendEnv) (s : AudioCapture)
    (os : OSWorld) (m sp mp : String) (h : s.state = SessionState.Recording) :
    StartRecording env s os m sp mp = (false, s, os) := by
  simp [StartRecording, h]

/-- C2 witness: a concrete rejected second start. -/
theorem start_while_recording_rejected_witness :
    StartRecording envAllOk recordingSession ⟨[]⟩ "mic-2" "/a" "/b"
      = (false, recordingSession, (⟨[]⟩ : OSWorld)) :=
  start_while_recording_rejected envAllOk recordingSession ⟨[]⟩ "mic-2" "/a" "/b"
    rfl

/-- C3: from `Idle`, `StartRecording` is atomic: it returns `true` iff
the capability is present and both streams open, in which case the state
is `Recording`, the handle owns exactly the two streams and both are open
at the OS layer; on any failure it returns `false`, the state remains
`Idle` with no backend handle, and the OS world is exactly as before the
call (any partially-initialized stream was torn down). -/
theorem start_atomic (env : BackendEnv) (s : AudioCapture) (os : OSWorld)
    (m sp mp : String) (h : s.state = SessionState.Idle) :
    ((StartRecording env s os m sp mp).1 = true ↔
      env.sckSupported = true ∧ env.sysOpenOk = true ∧ env.micOpenOk = true) ∧
    ((StartRecording env s os m sp mp).1 = true →
      (StartRecording env s os m sp mp).2.1.state = SessionState.Recording ∧
      (StartRecording env s os m sp mp).2.1.pImpl
        = some ⟨⟨StreamKind.system, "", sp⟩, ⟨StreamKind.mic, m, mp⟩⟩ ∧
      (StartRecording env s os m sp mp).2.2.openStreams
        = os.openStreams
            ++ [⟨StreamKind.system, "", sp⟩, ⟨StreamKind.mic, m, mp⟩]) ∧
    ((StartRecording env s os m sp mp).1 = false →
      (StartRecording env s os m sp mp).2.1 = ⟨SessionState.Idle, none⟩ ∧
      (StartRecording env s os m sp mp).2.2 = os) := by
  by_cases h1 : env.sckSupported <;> by_cases h2 : env.sysOpenOk <;>
    by_cases h3 : env.micOpenOk <;>
    simp [StartRecording, h, h1, h2, h3]

/-- C3 witness: a concrete successful start from `Idle`. -/
theorem start_atomic_witness :
    (StartRecording envAllOk AudioCapture.initial ⟨[]⟩ "mic-1" "/s" "/m").1
        = true ↔
      envAllOk.sckSupported = true ∧ envAllOk.sysOpenOk = true ∧
        envAllOk.micOpenOk = true :=
  (start_atomic envAllOk AudioCapture.initial ⟨[]⟩ "mic-1" "/s" "/m" rfl).1

/-- C4: a `StopRecording` call made while the session is `Recording`
returns `true` exactly when the backend finalised both streams cleanly,
and in every case — including a partial backend failure during teardown —
the backend handle is destroyed and the state becomes `Idle` when the
call returns; the session is never left stuck in `Recording`. -/
theorem stop_recording_unconditional_idle (env : BackendEnv)
    (s : AudioCapture) (os : OSWorld) (h : s.state = SessionState.Recording) :
    (StopRecording env s os).1 = env.closeOk ∧
    (StopRecording env s os).2.1.state = SessionState.Idle ∧
    (StopRecording env s os).2.1.pImpl = none := by
  simp [StopRecording, h]

/-- C4 witness: a concrete stop whose backend teardown fails partway
still destroys the handle and lands in `Idle`. -/
theorem stop_recording_unconditional_idle_witness :
    (StopRecording envCloseFail recordingSession ⟨[]⟩).1
        = envCloseFail.closeOk ∧
    (StopRecording envCloseFail recordingSession ⟨[]⟩).2.1.state
        = SessionState.Idle ∧
    (StopRecording envCloseFail recordingSession ⟨[]⟩).2.1.pImpl = none :=
  stop_recording_unconditional_idle envCloseFail recordingSession ⟨[]⟩ rfl

/-- The handle/state invariant of spec §3: the backend handle exists iff
the session state is `Recording`. -/
def handleInv (a : AudioCapture) : Prop :=
  a.pImpl.isSome = true ↔ a.state = SessionState.Recording

/-- C5: the invariant "the backend handle exists iff `state = Recording`"
holds for the freshly constructed session and is preserved by every
public operation (`StartRecording`, `StopRecording`,
`GetAudioInputDevices`, `IsScreenCaptureKitSupported`) under any platform
conditions: the handle is created exactly by a successful start and
destroyed exactly by a stop attempt or a start that fails partway. -/
theorem handle_iff_recording :
    handleInv AudioCapture.initial ∧
    ∀ (s : SysState) (c : Call),
      handleInv s.session → handleInv (step s c).2.session := by
  constructor
  · simp [handleInv, AudioCapture.initial]
  · intro s c hs
    cases c with
    | start env m sp mp =>
        rcases hA : s.session.state with _ | _
        · by_cases h1 : env.sckSupported && env.sysOpenOk <;>
            by_cases h2 : env.micOpenOk <;>
            simp [step, StartRecording, hA, h1, h2, handleInv]
        · rw [step_start_of_recording env m sp mp s hA]
          exact hs
    | stop env =>
        rcases hA : s.session.state with _ | _
        · simpa [step, StopRecording, hA] using hs
        · simp [step, StopRecording, hA, handleInv]
    | getDevices env => exact hs
    | isSupported env => exact hs

/-- C5 witness: the invariant at the initial session, and preserved
across a concrete stop call from the initial state. -/
theorem handle_iff_recording_witness :
    handleInv AudioCapture.initial ∧
    handleInv (step SysState.initial (Call.stop envAllOk)).2.session :=
  ⟨handle_iff_recording.1,
    handle_iff_recording.2 SysState.initial (Call.stop envAllOk)
      (by simp [handleInv, SysState.initial, AudioCapture.initial])⟩

theorem stop_idle_noop (env : BackendEnv) (s : AudioCapture) (os : OSWorld)
    (h : s.state = SessionState.Idle) :
    StopRecording env s os = (false, s, os) := by
  simp [StopRecording, h]

/-- C6: any number of consecutive `StopRecording` calls made while the
session is `Idle` (under arbitrary, even varying, platform conditions)
each return `false` and leave the whole state unchanged — a no-op
reporting failure, idempotent across repetitions. -/
theorem stop_idle_idempotent (envs : List BackendEnv) (s : SysState)
    (h : s.session.state = SessionState.Idle) :
    runAnnot s (envs.map Call.stop)
      = (envs.map fun e => (Call.stop e, CallResult.ok false), s) := by
  induction envs with
  | nil => rfl
  | cons e es ih =>
      have hs : step s (Call.stop e) = (CallResult.ok false, s) := by
        simp [step, stop_idle_noop e s.session s.os h]
      simp [runAnnot, hs, ih]

/-- C6 witness: three consecutive stops from the initial `Idle` state
all return `false` and change nothing. -/
theorem stop_idle_idempotent_witness :
    runAnnot SysState.initial ([envAllOk, envCloseFail, envAllOk].map Call.stop)
      = ([envAllOk, envCloseFail, envAllOk].map
          fun e => (Call.stop e, CallResult.ok false),
         SysState.initial) :=
  stop_idle_idempotent [envAllOk, envCloseFail, envAllOk] SysState.initial rfl

/-- C7: `GetAudioInputDevices` never signals an error: dispatching it
leaves the session state untouched and always yields a device list —
the platform list queried fresh from the conditions at call time, in
platform enumeration order; when enumeration is denied, or when no input
devices exist, that list is empty rather than a failure. -/
theorem get_devices_never_fails (env : BackendEnv) (s : SysState) :
    step s (Call.getDevices env)
      = (CallResult.devices (GetAudioInputDevices env), s) ∧
    (env.enumDenied = false → GetAudioInputDevices env = env.inputDevices) ∧
    (env.enumDenied = true → GetAudioInputDevices env = []) ∧
    (env.inputDevices = [] → GetAudioInputDevices env = []) := by
  refine ⟨rfl, ?_, ?_, ?_⟩ <;> intro h <;> simp [GetAudioInputDevices, h]

/-- C7 witness: on a concrete platform with one microphone and
enumeration allowed, the catalog returns exactly that platform list. -/
theorem get_devices_never_fails_witness :
    GetAudioInputDevices envAllOk = envAllOk.inputDevices :=
  (get_devices_never_fails envAllOk SysState.initial).2.1 rfl

/-- C8: `IsScreenCaptureKitSupported` is a pure, deterministic query:
dispatching it returns the session state unchanged (no side effect on
state or handle), and its value is exactly the platform's static
capability bit, so for a fixed OS/runtime version every call — repeated
or interleaved anywhere between starts and stops — returns the same
boolean. -/
theorem is_supported_pure (env : BackendEnv) (s : SysState) :
    step s (Call.isSupported env)
      = (CallResult.ok (IsScreenCaptureKitSupported env), s) ∧
    IsScreenCaptureKitSupported env = env.sckSupported :=
  ⟨rfl, rfl⟩

/-- Modelled from the spec: the process-wide storage behind
`AudioCapture::GetInstance` (declared at `audio_capture.h:20`;
implementation absent from the repository): whether the lazily-built
static instance exists yet, and how many times the private constructor
(`audio_capture.h:48`) has run.  Copy/move construction and assignment
are deleted (`audio_capture.h:23-26`), so constructing through
`GetInstance` is the only way a session can come to exist. -/
structure SingletonWorld where
  constructed : Bool
  ctorCalls : Nat
deriving DecidableEq, Repr

/-- A process in which no operation has run yet. -/
def freshProcess : SingletonWorld := ⟨false, 0⟩

/-- Modelled from the spec: `AudioCapture::GetInstance`
(`audio_capture.h:20`): constructs the static instance on first use and
returns its fixed identity (the address of the static, modelled as the
token `0`) on every call. -/
def GetInstance (w : SingletonWorld) : Nat × SingletonWorld :=
  if w.constructed then (0, w) else (0, ⟨true, w.ctorCalls + 1⟩)

/-- `n` successive `GetInstance` calls: the identities returned and the
final process state. -/
def getInstanceN (w : SingletonWorld) : Nat → List Nat × SingletonWorld
  | 0 => ([], w)
  | n + 1 =>
      let r := GetInstance w
      let rest := getInstanceN r.2 n
      (r.1 :: rest.1, rest.2)

theorem getInstanceN_constructed (k : Nat) (n : Nat) :
    getInstanceN ⟨true, k⟩ n = (List.replicate n 0, ⟨true, k⟩) := by
  induction n with
  | zero => rfl
  | succ m ih => simp [getInstanceN, GetInstance, ih, List.replicate]

/-- C9: starting from a fresh process, any number `n` of `GetInstance`
calls — the first included — all return the same identity, and the
private constructor runs at most once (exactly once as soon as one call
was made): lazy one-time construction with fixed identity, and since
copy/move are deleted no second session is ever created. -/
theorem get_instance_singleton (n : Nat) :
    (getInstanceN freshProcess n).1 = List.replicate n 0 ∧
    (getInstanceN freshProcess n).2.ctorCalls = min n 1 := by
  cases n with
  | zero => exact ⟨rfl, rfl⟩
  | succ m =>
      have h : getInstanceN freshProcess (m + 1)
          = (0 :: List.replicate m 0, ⟨true, 1⟩) := by
        simp [getInstanceN, freshProcess, GetInstance, getInstanceN_constructed]
      rw [h]
      exact ⟨(List.replicate_succ 0 m).symm, by simp⟩

/-- The three caller-owned argument strings of `StartRecording`, passed
by const reference (`audio_capture.h:30-32`). -/
structure StartArgs where
  micDeviceID : String
  systemAudioOutputPath : String
  micAudioOutputPath : String
deriving DecidableEq, Repr

/-- `StartRecording` as seen from the caller's frame: the call reads the
caller's three strings through const references and hands them back
untouched alongside its result — the `const std::string&` parameters
(`audio_capture.h:30-32`) forbid writing through them, so the embedding
returns the argument object as received; only the session and the OS
world may change. -/
def StartRecordingFrame (env : BackendEnv) (s : AudioCapture) (os : OSWorld)
    (args : StartArgs) : (Bool × AudioCapture × OSWorld) × StartArgs :=
  (StartRecording env s os args.micDeviceID args.systemAudioOutputPath
      args.micAudioOutputPath, args)

/-- C10: for every `StartRecording` call the three caller-provided
argument strings are unchanged when the call returns, and the call's
outcome is exactly that of `StartRecording` on those strings — the only
state the call may touch is the session and the backend's streams. -/
theorem start_preserves_args (env : BackendEnv) (s : AudioCapture)
    (os : OSWorld) (args : StartArgs) :
    (StartRecordingFrame env s os args).2 = args ∧
    (StartRecordingFrame env s os args).1
      = StartRecording env s os args.micDeviceID args.systemAudioOutputPath
          args.micAudioOutputPath :=
  ⟨rfl, rfl⟩
